import Mathlib

/-!
Verification development for the Zyra backend's authentication and
credential-lifecycle subsystem.

The definitions below are a shallow embedding of the JavaScript source:

* `generateToken`, `generateRefreshToken`, `verifyToken` — `JwtTokenUtil`
  (src/unnamed/part_001).  A signed JWT is modelled symbolically as a record
  carrying its claims, the secret it was signed with, its optional
  issuer/audience tags and its issue/expiry instants (milliseconds since
  epoch); `jwt.verify` succeeds exactly when the secret matches (and, when
  the verifier passes the options, the issuer/audience match) and the token
  is unexpired.
* `authMiddleware` — src/src/middleware/auth.js.
* `ctrlGenerateToken`, `refreshTokenCtrl`, `login`, `forgotPassword`,
  `changePassword`, `logout`, `verifyOTPCtrl` — the auth controller
  (src/unnamed/part_013).
* `RefreshTokenService state and operations` — src/unnamed/part_005.
* `OTP service operations` — src/src/services/otpService.js (and, for
  comparison, the 3-minute variant in src/unnamed/part_006).

Opaque random identifiers (crypto.randomBytes token strings, database row
ids) are modelled as natural numbers drawn from a counter; time is a natural
number of milliseconds.  bcrypt comparison/hashing and the random OTP digits
are taken as parameters, since their values never influence control flow
beyond the Boolean outcome.
-/

namespace Zyra

/-- JWT claim set: `userId`, `role` and the optional `type` tag
(`jwtTokenUtil.generateToken` sets `type: 'access'`,
`generateRefreshToken` sets `type: 'refresh'`, the auth controller's own
`generateToken` sets no type at all). -/
structure Claims where
  userId : Nat
  role : String
  kindTag : Option String
deriving Repr, DecidableEq

/-- A signed JWT, modelled symbolically: the payload together with the
signing secret and the registered claims `jwt.sign` writes
(issuer/audience when the sign options carry them, issued-at, expiry). -/
structure Jwt where
  claims : Claims
  secret : String
  issuer : Option String
  audience : Option String
  iat : Nat
  exp : Nat
deriving Repr, DecidableEq

/-- Configuration of `JwtTokenUtil` (src/unnamed/part_001 constructor):
secret, access-token lifetime and refresh lifetime in milliseconds. -/
structure JwtConfig where
  secret : String
  expirationMs : Nat
  refreshExpirationMs : Nat
deriving Repr, DecidableEq

/-- `JwtTokenUtil.generateToken` (src/unnamed/part_001, lines 35–52):
signs `{userId, role, type: 'access'}` with issuer `zyra-api`,
audience `zyra-client` and lifetime `this.expiration`. -/
def generateToken (cfg : JwtConfig) (now : Nat) (userId : Nat) (role : String) : Jwt :=
  { claims := { userId := userId, role := role, kindTag := some "access" }
    secret := cfg.secret
    issuer := some "zyra-api"
    audience := some "zyra-client"
    iat := now
    exp := now + cfg.expirationMs }

/-- `JwtTokenUtil.generateRefreshToken`: signs `{userId, type: 'refresh'}`
with the refresh lifetime. -/
def generateRefreshToken (cfg : JwtConfig) (now : Nat) (userId : Nat) : Jwt :=
  { claims := { userId := userId, role := "", kindTag := some "refresh" }
    secret := cfg.secret
    issuer := some "zyra-api"
    audience := some "zyra-client"
    iat := now
    exp := now + cfg.refreshExpirationMs }

/-- Outcomes of `jwt.verify`, as the callers branch on them. -/
inductive JwtError
  | expired
  | invalid
deriving Repr, DecidableEq

/-- Bare `jwt.verify(token, secret)` with no options, as called by
src/src/middleware/auth.js and by the auth controller's `refreshToken`
handler: checks only the signature (secret) and expiry — issuer and
audience are NOT verified because no options are passed. -/
def jwtVerify (secret : String) (now : Nat) (t : Jwt) : Except JwtError Claims :=
  if t.secret ≠ secret then .error .invalid
  else if t.exp ≤ now then .error .expired
  else .ok t.claims

/-- `JwtTokenUtil.verifyToken` (src/unnamed/part_001, lines 98–115):
`jwt.verify` with issuer `zyra-api` and audience `zyra-client` options, so
signature, issuer, audience and expiry are all checked. -/
def verifyToken (cfg : JwtConfig) (now : Nat) (t : Jwt) : Except JwtError Claims :=
  if t.secret ≠ cfg.secret then .error .invalid
  else if t.issuer ≠ some "zyra-api" then .error .invalid
  else if t.audience ≠ some "zyra-client" then .error .invalid
  else if t.exp ≤ now then .error .expired
  else .ok t.claims

/-- User row, with the columns the authentication flows read or write. -/
structure UserRow where
  id : Nat
  email : String
  role : String
  is_active : Bool
  is_verified : Bool
  phone_number : Option String
  phone_verified : Bool
  password_hash : String
  reset_password_token : Option Nat
  reset_password_expires : Option Nat
deriving Repr, DecidableEq

/-- Result of the request gate (src/src/middleware/auth.js), one
constructor per response branch. -/
inductive AuthOutcome
  | noToken              -- 401 'Access token required'
  | invalidToken         -- 401 'Invalid token'
  | tokenExpired         -- 401 'Token expired'
  | userNotFound         -- 401 'User not found'
  | accountDeactivated   -- 401 'Account is deactivated'
  | ok (userId : Nat) (email : String) (role : String)
deriving Repr, DecidableEq

/-- `authMiddleware` (src/src/middleware/auth.js, lines 5–71): extract the
bearer token, `jwt.verify` it against `JWT_SECRET` (no options), load the
user by `decoded.userId`, reject a missing or inactive user, else attach
identity.  The decoded `type` claim is never inspected. -/
def authMiddleware (secret : String) (now : Nat) (users : List UserRow)
    (bearer : Option Jwt) : AuthOutcome :=
  match bearer with
  | none => .noToken
  | some tok =>
    match jwtVerify secret now tok with
    | .error .invalid => .invalidToken
    | .error .expired => .tokenExpired
    | .ok decoded =>
      match users.find? (fun u => u.id == decoded.userId) with
      | none => .userNotFound
      | some u =>
        if !u.is_active then .accountDeactivated
        else .ok u.id u.email u.role

/-- The auth controller's local `generateToken` (src/unnamed/part_013,
lines 11–17): `jwt.sign({userId, role}, JWT_SECRET, {expiresIn})` —
no `type` claim, no issuer, no audience. -/
def ctrlGenerateToken (secret : String) (expiresMs : Nat) (now : Nat)
    (userId : Nat) (role : String) : Jwt :=
  { claims := { userId := userId, role := role, kindTag := none }
    secret := secret
    issuer := none
    audience := none
    iat := now
    exp := now + expiresMs }

/-- Responses of the auth controller's `refreshToken` handler
(src/unnamed/part_013, lines 475–506). -/
inductive RefreshCtrlResult
  | missingToken                -- 400 'Refresh token is required'
  | invalidRefreshToken         -- 401 'Invalid refresh token'
  | ok (token : Jwt)            -- 200 with a freshly signed access token
deriving Repr, DecidableEq

/-- The auth controller's `refreshToken` handler: `jwt.verify` the
presented token with the bare secret (any verify failure is caught and
mapped to 401 'Invalid refresh token'), then sign a fresh token from the
decoded `userId`/`role`.  The decoded `type` claim is never inspected. -/
def refreshTokenCtrl (secret : String) (expiresMs : Nat) (now : Nat)
    (body : Option Jwt) : RefreshCtrlResult :=
  match body with
  | none => .missingToken
  | some t =>
    match jwtVerify secret now t with
    | .error _ => .invalidRefreshToken
    | .ok d => .ok (ctrlGenerateToken secret expiresMs now d.userId d.role)

end Zyra

namespace Zyra

/-! ### Refresh-Token Ledger (`RefreshTokenService`, src/unnamed/part_005)

Opaque `crypto.randomBytes(32).toString('hex')` token strings are modelled
as natural numbers drawn from the counter `ctr` (successive calls yield
distinct values; `FreshLedger` states that every stored token was drawn
from an earlier counter value, which is what 256-bit randomness provides).
The database that the service and the auth controller share is one record
`DB`; a caught storage failure of the token lookup is modelled by the flag
`lookupFault`. -/

/-- A row of the `refresh_tokens` table. -/
structure RtRow where
  user_id : Nat
  token : Nat
  expires_at : Nat
  revoked : Bool
  revoked_at : Option Nat
deriving Repr, DecidableEq

/-- A row of the `otp_verifications` table. -/
structure OtpRow where
  id : Nat
  user_id : Nat
  email : Option String
  phone_number : Option String
  otp_code : String
  verification_type : String
  is_verified : Bool
  expires_at : Nat
  verified_at : Option Nat
  attempts : Nat
deriving Repr, DecidableEq

/-- The persistent state shared by the services and controllers, plus the
token-string supply `ctr`, the current time `now` (ms) and the
storage-fault flag for the refresh-token lookup. -/
structure DB where
  users : List UserRow
  refresh_tokens : List RtRow
  otps : List OtpRow
  ctr : Nat
  now : Nat
  lookupFault : Bool
deriving Repr, DecidableEq

/-- `RefreshTokenService.generateTokenString`: a fresh opaque value. -/
def generateTokenString (db : DB) : Nat × DB :=
  (db.ctr, { db with ctr := db.ctr + 1 })

/-- `RefreshTokenService.createRefreshToken` (src/unnamed/part_005, lines
80–100): insert a fresh token with `expires_at = now + 30 days`. -/
def createRefreshToken (db : DB) (uid : Nat) : RtRow × DB :=
  let g := generateTokenString db
  let row : RtRow :=
    { user_id := uid, token := g.1
      expires_at := db.now + 30 * 24 * 60 * 60 * 1000
      revoked := false, revoked_at := none }
  (row, { g.2 with refresh_tokens := g.2.refresh_tokens ++ [row] })

/-- The SQL query in `findByToken`: first row with this token that is
unrevoked and has `expires_at > now` (strict). -/
def findByTokenQuery (rows : List RtRow) (t now : Nat) : Option RtRow :=
  rows.find? (fun r => r.token == t && !r.revoked && decide (now < r.expires_at))

/-- `RefreshTokenService.findByToken` (src/unnamed/part_005, lines
108–121): runs the query; a thrown storage error is caught and turned
into `null`, so the function is total into `Option` and can never surface
an internal error kind. -/
def findByToken (db : DB) (t : Nat) : Option RtRow :=
  if db.lookupFault then none
  else findByTokenQuery db.refresh_tokens t db.now

/-- `RefreshTokenService.revokeToken` (src/unnamed/part_005, lines
128–146): `UPDATE refresh_tokens SET revoked = true, revoked_at = now
WHERE token = t` — note the `WHERE` filters on the token only, not on
`revoked = false`, and the returned Boolean is `updated > 0`, the number
of rows *matched*, revoked or not. -/
def revokeToken (db : DB) (t : Nat) : Bool × DB :=
  let updated := db.refresh_tokens.countP (fun r => r.token == t)
  ( decide (0 < updated)
  , { db with refresh_tokens := db.refresh_tokens.map (fun r =>
        if r.token == t then { r with revoked := true, revoked_at := some db.now }
        else r) } )

/-- `RefreshTokenService.revokeAllUserTokens`: revokes every live token of
the user and returns how many were flipped (`WHERE user_id = u AND
revoked = false`). -/
def revokeAllUserTokens (db : DB) (uid : Nat) : Nat × DB :=
  ( db.refresh_tokens.countP (fun r => r.user_id == uid && !r.revoked)
  , { db with refresh_tokens := db.refresh_tokens.map (fun r =>
        if r.user_id == uid && !r.revoked then
          { r with revoked := true, revoked_at := some db.now }
        else r) } )

/-- Error kinds of `refreshAccessToken`, as the thrown messages:
`'Invalid or expired refresh token'` and `'User not found or inactive'`. -/
inductive RotateError
  | invalidOrExpired
  | userInactiveOrMissing
deriving Repr, DecidableEq

/-- The pair returned by `refreshAccessToken`: the freshly signed access
token, the fresh opaque refresh-token string, and the lifetime in
seconds (`tokenType: 'Bearer'` is a constant and is omitted). -/
structure TokenPair where
  accessToken : Jwt
  refreshToken : Nat
  expiresIn : Nat
deriving Repr, DecidableEq

/-- `RefreshTokenService.refreshAccessToken` (src/unnamed/part_005, lines
196–234): look the presented token up (`InvalidOrExpired` if absent,
revoked, expired or a caught lookup error), load the owning user by the
row's own `user_id` (`UserInactiveOrMissing` if missing or inactive),
then revoke the presented token, mint a new access token via the issuer
and insert a brand-new refresh token. -/
def refreshAccessToken (cfg : JwtConfig) (db : DB) (t : Nat) :
    Except RotateError (TokenPair × DB) :=
  match findByToken db t with
  | none => .error .invalidOrExpired
  | some row =>
    match db.users.find? (fun u => u.id == row.user_id) with
    | none => .error .userInactiveOrMissing
    | some u =>
      if !u.is_active then .error .userInactiveOrMissing
      else
        let db1 := (revokeToken db t).2
        let res := createRefreshToken db1 u.id
        .ok ( { accessToken := generateToken cfg db.now u.id u.role
              , refreshToken := res.1.token
              , expiresIn := cfg.expirationMs / 1000 }
            , res.2 )

/-- Every stored refresh-token string was drawn from an earlier value of
the supply counter — the freshness that `crypto.randomBytes` provides. -/
def FreshLedger (db : DB) : Prop :=
  ∀ r ∈ db.refresh_tokens, r.token < db.ctr

end Zyra

namespace Zyra

/-! ### Concrete inputs used by closed theorems -/

/-- A generic active user row. -/
def userAlice : UserRow :=
  { id := 1, email := "alice@example.com", role := "user", is_active := true
    is_verified := true, phone_number := none, phone_verified := false
    password_hash := "h1", reset_password_token := none
    reset_password_expires := none }

/-- A refresh-kind JWT signed with secret "s", valid until t = 1000. -/
def refreshKindTok : Jwt :=
  { claims := { userId := 1, role := "user", kindTag := some "refresh" }
    secret := "s", issuer := some "zyra-api", audience := some "zyra-client"
    iat := 0, exp := 1000 }

/-- An access-kind JWT signed with secret "s", valid until t = 1000. -/
def accessKindTok : Jwt :=
  { claims := { userId := 1, role := "user", kindTag := some "access" }
    secret := "s", issuer := some "zyra-api", audience := some "zyra-client"
    iat := 0, exp := 1000 }

end Zyra

namespace Zyra

/-- Claim C3 counterexample: the claim "a token of the wrong kind is never
accepted" is false at a concrete input.  A validly-signed, unexpired token
whose `type` claim is `'refresh'` passes `authMiddleware` and authenticates
the request (the middleware never reads the kind), and a token whose
`type` claim is `'access'` is accepted by the controller's refresh
operation, which mints a new token from it. -/
theorem C3_wrong_kind_accepted_counterexample :
    authMiddleware "s" 5 [userAlice] (some refreshKindTok) =
      .ok 1 "alice@example.com" "user" ∧
    refreshTokenCtrl "s" 1000 5 (some accessKindTok) =
      .ok (ctrlGenerateToken "s" 1000 5 1 "user") := by
  constructor <;> rfl

/-- Claim C3, amended: neither the request gate nor the controller's
refresh operation inspects the token's kind claim at all — each one's
outcome is unchanged when the decoded `type` claim is replaced by any
other value, so a refresh token authenticates a protected request and an
access token passes the refresh endpoint whenever the signature and expiry
checks pass. -/
theorem C3_kind_never_inspected (secret : String) (now : Nat)
    (users : List UserRow) (c : Claims) (sec : String) (iss aud : Option String)
    (iat exp : Nat) (ty : Option String) :
    authMiddleware secret now users
        (some ⟨{ c with kindTag := ty }, sec, iss, aud, iat, exp⟩) =
      authMiddleware secret now users (some ⟨c, sec, iss, aud, iat, exp⟩) ∧
    refreshTokenCtrl secret 1000 now
        (some ⟨{ c with kindTag := ty }, sec, iss, aud, iat, exp⟩) =
      refreshTokenCtrl secret 1000 now (some ⟨c, sec, iss, aud, iat, exp⟩) := by
  by_cases hs : sec = secret
  · by_cases he : exp ≤ now
    · constructor <;> simp [authMiddleware, refreshTokenCtrl, jwtVerify, hs, he]
    · constructor <;>
        simp [authMiddleware, refreshTokenCtrl, jwtVerify, ctrlGenerateToken, hs, he]
  · constructor <;> simp [authMiddleware, refreshTokenCtrl, jwtVerify, hs]

/-- Claim C8: verifying a freshly issued access token before its expiry
instant succeeds and recovers the subject and role it was issued for
(`verifyToken` is a left inverse of `generateToken` on the identity
claims, within the validity window). -/
theorem C8_verify_roundtrip (cfg : JwtConfig) (now later : Nat)
    (u : Nat) (r : String) (h : later < now + cfg.expirationMs) :
    verifyToken cfg later (generateToken cfg now u r) =
      .ok { userId := u, role := r, kindTag := some "access" } := by
  simp [verifyToken, generateToken, Nat.not_le_of_lt h]

/-- Claim C8 witness: the round trip evaluated at a concrete
configuration, issue time, verify time, user and role. -/
theorem C8_verify_roundtrip_witness :
    (50 : Nat) < 10 + 604800000 ∧
    verifyToken ⟨"s", 604800000, 2592000000⟩ 50
        (generateToken ⟨"s", 604800000, 2592000000⟩ 10 7 "admin") =
      .ok { userId := 7, role := "admin", kindTag := some "access" } :=
  ⟨by decide, C8_verify_roundtrip ⟨"s", 604800000, 2592000000⟩ 10 50 7 "admin"
    (by decide)⟩

/-- A ledger state holding one live refresh token (token 5 of user 1),
used to exercise `revokeToken` twice. -/
def dbOneLive : DB :=
  { users := [], refresh_tokens := [⟨1, 5, 100, false, none⟩], otps := []
    ctr := 6, now := 50, lookupFault := false }

/-- Claim C6 counterexample: the claim "revoke(token) twice returns true
then false" is false at a concrete input.  The `UPDATE` filters on the
token alone, so as long as the row exists (the sweep has not deleted it)
every call matches it and returns true: the second call also returns
true, not false. -/
theorem C6_revoke_twice_counterexample :
    (revokeToken dbOneLive 5).1 = true ∧
    (revokeToken (revokeToken dbOneLive 5).2 5).1 = true := by
  constructor <;> rfl

/-- Claim C6, amended: `revoke(token)` marks every row carrying that token
revoked and reports whether any such row exists — already-revoked rows
included, because the update's `WHERE` clause filters on the token only.
A repeated call therefore returns the same value as the first (true while
the row persists, false only for a token with no row), never the
true-then-false sequence of a conditional flip. -/
theorem C6_revoke_reports_existence (db : DB) (t : Nat) :
    ((revokeToken db t).1 = true ↔ ∃ r ∈ db.refresh_tokens, r.token = t) ∧
    (revokeToken (revokeToken db t).2 t).1 = (revokeToken db t).1 := by
  constructor
  · simp only [revokeToken, decide_eq_true_eq]
    rw [List.countP_pos_iff]
    simp [beq_iff_eq]
  · simp only [revokeToken, List.countP_map]
    congr 2
    apply List.countP_congr
    intro r _
    by_cases h : r.token = t <;> simp [h]

/-- Claim C10: a storage failure during the refresh-token lookup is
swallowed — `findByToken` catches the error and returns `null` (it is
total into `Option`, so no internal error kind can surface) — and the
rotate operation then reports `InvalidOrExpired`, exactly the answer it
gives when the ledger has no row for the presented token at all. -/
theorem C10_lookup_fault_opaque (cfg : JwtConfig) (db : DB) (t : Nat) :
    findByToken { db with lookupFault := true } t = none ∧
    refreshAccessToken cfg { db with lookupFault := true } t =
      .error .invalidOrExpired ∧
    refreshAccessToken cfg { db with refresh_tokens := [], lookupFault := false } t =
      .error .invalidOrExpired := by
  refine ⟨rfl, ?_, ?_⟩ <;> simp [refreshAccessToken, findByToken, findByTokenQuery]

/-- Claim C7: if the presented refresh token is found live (unrevoked,
unexpired) but its owning user is missing from the store or deactivated,
`refreshAccessToken` fails with `UserInactiveOrMissing`; the error is
raised before the revoke/insert steps, so no new tokens are issued and
the state is untouched. -/
theorem C7_inactive_user_rejected (cfg : JwtConfig) (db : DB) (t : Nat)
    (row : RtRow) (hfind : findByToken db t = some row)
    (huser : db.users.find? (fun u => u.id == row.user_id) = none ∨
      ∃ u, db.users.find? (fun v => v.id == row.user_id) = some u ∧
        u.is_active = false) :
    refreshAccessToken cfg db t = .error .userInactiveOrMissing := by
  unfold refreshAccessToken
  rw [hfind]
  rcases huser with h | ⟨u, h, hact⟩
  · dsimp only
    rw [h]
  · dsimp only
    rw [h]
    simp [hact]

/-- A ledger state with a deactivated owner: user 9 is inactive and still
holds the live refresh token 3. -/
def dbInactiveOwner : DB :=
  { users := [{ userAlice with id := 9, is_active := false }]
    refresh_tokens := [⟨9, 3, 5000, false, none⟩], otps := []
    ctr := 4, now := 100, lookupFault := false }

/-- Claim C7 witness: rotating the still-unexpired token of the
deactivated user 9 fails with `UserInactiveOrMissing`. -/
theorem C7_inactive_user_rejected_witness :
    findByToken dbInactiveOwner 3 = some ⟨9, 3, 5000, false, none⟩ ∧
    refreshAccessToken ⟨"s", 604800000, 2592000000⟩ dbInactiveOwner 3 =
      .error .userInactiveOrMissing :=
  ⟨rfl, C7_inactive_user_rejected ⟨"s", 604800000, 2592000000⟩ dbInactiveOwner 3
    ⟨9, 3, 5000, false, none⟩ rfl
    (Or.inr ⟨{ userAlice with id := 9, is_active := false }, rfl, rfl⟩)⟩

/-- Claim C1: rotation is single-use.  If `rotate(T)` succeeds from a
ledger whose stored tokens are all older than the supply counter, then in
the resulting state every row carrying `T` is revoked, the returned
refresh token is brand new (not among the previously stored tokens),
replaying `rotate(T)` fails with `InvalidOrExpired`, and rotating the
newly returned token succeeds. -/
theorem C1_rotation_single_use (cfg : JwtConfig) (db : DB) (t : Nat)
    (pair : TokenPair) (db' : DB) (hfresh : FreshLedger db)
    (hok : refreshAccessToken cfg db t = .ok (pair, db')) :
    (∀ r ∈ db'.refresh_tokens, r.token = t → r.revoked = true) ∧
    pair.refreshToken ∉ db.refresh_tokens.map (fun r => r.token) ∧
    refreshAccessToken cfg db' t = .error .invalidOrExpired ∧
    ∃ pair2 db2, refreshAccessToken cfg db' pair.refreshToken = .ok (pair2, db2) := by
  unfold refreshAccessToken at hok
  cases hfind : findByToken db t with
  | none => rw [hfind] at hok; exact absurd hok (by simp)
  | some row =>
  rw [hfind] at hok
  dsimp only at hok
  cases hu : db.users.find? (fun u => u.id == row.user_id) with
  | none => rw [hu] at hok; exact absurd hok (by simp)
  | some u =>
  rw [hu] at hok
  dsimp only at hok
  by_cases hact : u.is_active = true
  case neg =>
    rw [if_pos (by simp [Bool.not_eq_true] at hact; simp [hact])] at hok
    exact absurd hok (by simp)
  case pos =>
  rw [if_neg (by simp [hact])] at hok
  simp only [Except.ok.injEq, Prod.mk.injEq] at hok
  obtain ⟨hpair, hdb⟩ := hok
  -- facts from the successful lookup
  have hquery : findByTokenQuery db.refresh_tokens t db.now = some row ∧
      db.lookupFault = false := by
    unfold findByToken at hfind
    cases hLF : db.lookupFault with
    | true => rw [hLF] at hfind; simp at hfind
    | false => rw [hLF] at hfind; simp at hfind; exact ⟨hfind, rfl⟩
  obtain ⟨hq, hfl⟩ := hquery
  have hmem : row ∈ db.refresh_tokens := List.mem_of_find?_eq_some hq
  have hp := List.find?_some hq
  simp only [Bool.and_eq_true, beq_iff_eq, decide_eq_true_eq] at hp
  obtain ⟨⟨htok, hrv⟩, hexp⟩ := hp
  have htlt : t < db.ctr := htok ▸ hfresh row hmem
  have huid : u.id = row.user_id := by
    have := List.find?_some hu
    simpa [beq_iff_eq] using this
  -- canonical forms of the outputs
  have hpairR : pair.refreshToken = db.ctr := by rw [← hpair]; rfl
  have h1 : db'.refresh_tokens =
      db.refresh_tokens.map (fun r =>
        if r.token == t then { r with revoked := true, revoked_at := some db.now }
        else r) ++
      [⟨u.id, db.ctr, db.now + 30 * 24 * 60 * 60 * 1000, false, none⟩] := by
    rw [← hdb]; rfl
  have h2 : db'.lookupFault = false := by rw [← hdb]; exact hfl
  have h3 : db'.now = db.now := by rw [← hdb]; rfl
  have h4 : db'.users = db.users := by rw [← hdb]; rfl
  refine ⟨?_, ?_, ?_, ?_⟩
  · -- every row carrying t is revoked afterwards
    intro r hr hrt
    rw [h1] at hr
    simp only [List.mem_append, List.mem_map, List.mem_singleton] at hr
    rcases hr with ⟨r0, hr0, rfl⟩ | rfl
    · by_cases h0 : r0.token == t
      · simp [h0]
      · rw [if_neg h0] at hrt ⊢
        exact absurd hrt (by simpa using h0)
    · exact absurd hrt (by simp; omega)
  · -- the returned refresh token is brand new
    rw [hpairR]
    simp only [List.mem_map, not_exists]
    intro r0 hr0
    have := hfresh r0 hr0.1
    have := hr0.2
    omega
  · -- replaying rotate(t) fails
    have hnone : findByToken db' t = none := by
      unfold findByToken
      rw [h2, h1, h3]
      simp only [Bool.false_eq_true, if_false]
      unfold findByTokenQuery
      rw [List.find?_eq_none]
      intro x hx
      simp only [List.mem_append, List.mem_map, List.mem_singleton] at hx
      rcases hx with ⟨r0, hr0, rfl⟩ | rfl
      · by_cases h0 : r0.token == t <;> simp [h0]
      · simp
        omega
    unfold refreshAccessToken
    rw [hnone]
  · -- rotating the fresh token succeeds
    rw [hpairR]
    have hfb2 : findByToken db' db.ctr =
        some ⟨u.id, db.ctr, db.now + 30 * 24 * 60 * 60 * 1000, false, none⟩ := by
      unfold findByToken
      rw [h2, h1, h3]
      simp only [Bool.false_eq_true, if_false]
      unfold findByTokenQuery
      rw [List.find?_append]
      have hnl : (db.refresh_tokens.map (fun r =>
          if r.token == t then { r with revoked := true, revoked_at := some db.now }
          else r)).find? (fun r =>
            r.token == db.ctr && !r.revoked && decide (db.now < r.expires_at)) =
          none := by
        rw [List.find?_eq_none]
        intro x hx
        simp only [List.mem_map] at hx
        obtain ⟨r0, hr0, rfl⟩ := hx
        have hr0c := hfresh r0 hr0
        by_cases h0 : r0.token == t
        · simp [h0]
        · simp [h0]
          omega
      rw [hnl]
      simp
    have hu2 : db'.users.find?
        (fun v => v.id == (⟨u.id, db.ctr, db.now + 30 * 24 * 60 * 60 * 1000,
          false, none⟩ : RtRow).user_id) = some u := by
      rw [h4]
      simpa only [huid] using hu
    refine ⟨{ accessToken := generateToken cfg db'.now u.id u.role
            , refreshToken := (createRefreshToken (revokeToken db' db.ctr).2 u.id).1.token
            , expiresIn := cfg.expirationMs / 1000 }
          , (createRefreshToken (revokeToken db' db.ctr).2 u.id).2, ?_⟩
    unfold refreshAccessToken
    rw [hfb2]
    dsimp only
    rw [hu2]
    simp [hact]

/-- Issuer configuration used by the C1 witness. -/
def cfgW : JwtConfig := ⟨"s", 604800000, 2592000000⟩

/-- Ledger with one live refresh token (token 0 of the active user 1). -/
def dbW : DB :=
  { users := [userAlice], refresh_tokens := [⟨1, 0, 2000, false, none⟩]
    otps := [], ctr := 1, now := 1000, lookupFault := false }

/-- The pair `rotate(0)` returns from `dbW`. -/
def pairW : TokenPair :=
  { accessToken := generateToken cfgW 1000 1 "user", refreshToken := 1
    expiresIn := 604800 }

/-- The ledger state after `rotate(0)` from `dbW`: token 0 revoked,
fresh token 1 inserted. -/
def dbW' : DB :=
  { users := [userAlice]
    refresh_tokens := [⟨1, 0, 2000, true, some 1000⟩, ⟨1, 1, 2592001000, false, none⟩]
    otps := [], ctr := 2, now := 1000, lookupFault := false }

/-- Claim C1 witness: the single-use rotation property evaluated on the
concrete one-token ledger `dbW`. -/
theorem C1_rotation_single_use_witness :
    FreshLedger dbW ∧
    refreshAccessToken cfgW dbW 0 = .ok (pairW, dbW') ∧
    ((∀ r ∈ dbW'.refresh_tokens, r.token = 0 → r.revoked = true) ∧
     pairW.refreshToken ∉ dbW.refresh_tokens.map (fun r => r.token) ∧
     refreshAccessToken cfgW dbW' 0 = .error .invalidOrExpired ∧
     ∃ pair2 db2, refreshAccessToken cfgW dbW' pairW.refreshToken = .ok (pair2, db2)) := by
  have hfr : FreshLedger dbW := by
    intro r hr
    simp only [dbW, List.mem_singleton] at hr
    subst hr
    decide
  exact ⟨hfr, rfl, C1_rotation_single_use cfgW dbW 0 pairW dbW' hfr rfl⟩

end Zyra

namespace Zyra

/-! ### Auth controller: login, forgot-password, change-password, logout
(src/unnamed/part_013).  bcrypt comparison and hashing are parameters
`checkPw`/`hashPw`; the response is modelled as the status code and the
user-visible message. -/

/-- An HTTP response: status code and user-visible message. -/
structure Resp where
  status : Nat
  message : String
deriving Repr, DecidableEq

/-- `login` (src/unnamed/part_013, lines 87–160): find the user by email
(401 'Invalid credentials' if absent), reject a deactivated account (401
'Account is deactivated'), compare the password with bcrypt (401 'Invalid
credentials' on mismatch), else 200.  The token issuance and `updated_at`
touch on the success path carry no information the claims need and are
elided. -/
def login (users : List UserRow) (checkPw : String → String → Bool)
    (email password : String) : Resp :=
  match users.find? (fun u => u.email == email) with
  | none => ⟨401, "Invalid credentials"⟩
  | some u =>
    if !u.is_active then ⟨401, "Account is deactivated"⟩
    else if !(checkPw password u.password_hash) then ⟨401, "Invalid credentials"⟩
    else ⟨200, "Login successful"⟩

/-- `forgotPassword` (src/unnamed/part_013, lines 321–358): whether or not
a user with the email exists, respond 200 with the same uniform message;
when one exists, store a reset token expiring in one hour. -/
def forgotPassword (db : DB) (resetTok : Nat) (email : String) : Resp × DB :=
  match db.users.find? (fun u => u.email == email) with
  | none =>
    (⟨200, "If an account with that email exists, a password reset link has been sent"⟩, db)
  | some u =>
    (⟨200, "If an account with that email exists, a password reset link has been sent"⟩,
     { db with users := db.users.map (fun v =>
        if v.id == u.id then
          { v with reset_password_token := some resetTok
                   reset_password_expires := some (db.now + 3600000) }
        else v) })

/-- `changePassword` (src/unnamed/part_013, lines 238–298): validate
presence and length, load the user, check the current password, then
update `password_hash` — and nothing else: no refresh token is touched. -/
def changePassword (db : DB) (checkPw : String → String → Bool)
    (hashPw : String → String) (userId : Nat)
    (currentPassword newPassword : String) : Resp × DB :=
  if currentPassword == "" || newPassword == "" then
    (⟨400, "Current password and new password are required"⟩, db)
  else if newPassword.length < 8 then
    (⟨400, "New password must be at least 8 characters"⟩, db)
  else
    match db.users.find? (fun u => u.id == userId) with
    | none => (⟨404, "User not found"⟩, db)
    | some u =>
      if !(checkPw currentPassword u.password_hash) then
        (⟨400, "Current password is incorrect"⟩, db)
      else
        (⟨200, "Password changed successfully"⟩,
         { db with users := db.users.map (fun v =>
            if v.id == userId then { v with password_hash := hashPw newPassword }
            else v) })

/-- `logout` (src/unnamed/part_013, lines 301–318): logs the event and
responds 200.  No database mutation of any kind is performed — in
particular no refresh token is revoked. -/
def logout (db : DB) (_userId : Nat) : Resp × DB :=
  (⟨200, "Logout successful"⟩, db)

/-- Claim C9: login failure does not reveal whether the email exists — an
unknown email and a wrong password for an existing active account produce
the identical 401 'Invalid credentials' response — and forgot-password
returns the same 200 response with the same uniform message whether or
not an account with the email exists. -/
theorem C9_no_user_enumeration (users : List UserRow)
    (checkPw : String → String → Bool) (e1 p1 e2 p2 : String) (u : UserRow)
    (h1 : users.find? (fun v => v.email == e1) = none)
    (h2 : users.find? (fun v => v.email == e2) = some u)
    (hact : u.is_active = true)
    (hpw : checkPw p2 u.password_hash = false) :
    login users checkPw e1 p1 = ⟨401, "Invalid credentials"⟩ ∧
    login users checkPw e2 p2 = ⟨401, "Invalid credentials"⟩ ∧
    ∀ (db : DB) (rt : Nat) (email : String),
      (forgotPassword db rt email).1 =
        ⟨200, "If an account with that email exists, a password reset link has been sent"⟩ := by
  refine ⟨?_, ?_, ?_⟩
  · unfold login
    rw [h1]
  · unfold login
    rw [h2]
    simp [hact, hpw]
  · intro db rt email
    unfold forgotPassword
    cases db.users.find? (fun v => v.email == email) <;> rfl

/-- Claim C9 witness: the uniform responses evaluated with a concrete
single-user store and an always-false password check. -/
theorem C9_no_user_enumeration_witness :
    ([userAlice].find? (fun v => v.email == "bob@example.com") = none) ∧
    ([userAlice].find? (fun v => v.email == "alice@example.com") = some userAlice) ∧
    userAlice.is_active = true ∧
    ((fun (_x _y : String) => false) "wrong" userAlice.password_hash = false) ∧
    (login [userAlice] (fun _ _ => false) "bob@example.com" "pw" =
        ⟨401, "Invalid credentials"⟩ ∧
      login [userAlice] (fun _ _ => false) "alice@example.com" "wrong" =
        ⟨401, "Invalid credentials"⟩ ∧
      ∀ (db : DB) (rt : Nat) (email : String),
        (forgotPassword db rt email).1 =
          ⟨200, "If an account with that email exists, a password reset link has been sent"⟩) :=
  ⟨rfl, rfl, rfl, rfl,
   C9_no_user_enumeration [userAlice] (fun _ _ => false)
     "bob@example.com" "pw" "alice@example.com" "wrong" userAlice rfl rfl rfl rfl⟩

/-- Claim C4: contrary to the claim, neither a successful password change
nor logout revokes any refresh token.  From the one-token ledger `dbW`, a
successful `changePassword` (200) followed by a successful `logout` (200)
leaves the `refresh_tokens` table byte-for-byte unchanged, and the
refresh token issued before the password change still rotates
successfully afterwards. -/
theorem C4_no_revocation_on_password_change_or_logout :
    (changePassword dbW (fun _ _ => true) (fun s => s) 1 "oldpw" "newpassword1").1.status
        = 200 ∧
    (logout (changePassword dbW (fun _ _ => true) (fun s => s) 1
        "oldpw" "newpassword1").2 1).1.status = 200 ∧
    (logout (changePassword dbW (fun _ _ => true) (fun s => s) 1
        "oldpw" "newpassword1").2 1).2.refresh_tokens = dbW.refresh_tokens ∧
    (refreshAccessToken cfgW
        (logout (changePassword dbW (fun _ _ => true) (fun s => s) 1
          "oldpw" "newpassword1").2 1).2 0).isOk = true := by
  refine ⟨rfl, rfl, rfl, rfl⟩

end Zyra

namespace Zyra

/-! ### OTP engine (src/src/services/otpService.js; the 3-minute variant
lives in src/unnamed/part_006).  The random 6-digit code and the fresh
row id are parameters. -/

/-- The three user-visible messages `verifyOTP` can produce. -/
inductive OtpMsg
  | verified          -- 'OTP verified successfully'
  | invalidOrExpired  -- 'Invalid or expired OTP code'
  | tooManyAttempts   -- 'Too many failed attempts. Please request a new OTP.'
deriving Repr, DecidableEq

/-- The lookup inside `verifyOTP`: first row matching the user, the
submitted code and the channel that is unverified and unexpired
(`expires_at > now`, strict). -/
def liveOtpFind (db : DB) (userId : Nat) (otpCode vt : String) : Option OtpRow :=
  db.otps.find? (fun o =>
    o.user_id == userId && o.otp_code == otpCode && o.verification_type == vt &&
    o.is_verified == false && decide (db.now < o.expires_at))

/-- `OTPService.verifyOTP` (src/src/services/otpService.js, lines
120–178): look up a live matching challenge (failure: invalid/expired);
reject with too-many-attempts when the matched row's own counter is
already ≥ 3; else mark the row verified and flip the user's channel
verification flag. -/
def verifyOTP (db : DB) (userId : Nat) (otpCode vt : String) :
    (Bool × OtpMsg) × DB :=
  match liveOtpFind db userId otpCode vt with
  | none => ((false, .invalidOrExpired), db)
  | some row =>
    if 3 ≤ row.attempts then ((false, .tooManyAttempts), db)
    else
      let db1 := { db with otps := db.otps.map (fun o =>
        if o.id == row.id then { o with is_verified := true, verified_at := some db.now }
        else o) }
      let db2 :=
        if vt = "email" then
          { db1 with users := db1.users.map (fun u =>
              if u.id == userId then { u with is_verified := true } else u) }
        else if vt = "sms" then
          { db1 with users := db1.users.map (fun u =>
              if u.id == userId then { u with phone_verified := true } else u) }
        else db1
      ((true, .verified), db2)

/-- `OTPService.incrementOTPAttempts` (src/src/services/otpService.js,
lines 181–196): increment `attempts` on every row matching the user, the
*submitted* code and the channel — there is no filter on liveness, and a
row whose stored code differs from the submitted one is never touched. -/
def incrementOTPAttempts (db : DB) (userId : Nat) (otpCode vt : String) : DB :=
  { db with otps := db.otps.map (fun o =>
      if o.user_id == userId && o.otp_code == otpCode && o.verification_type == vt then
        { o with attempts := o.attempts + 1 }
      else o) }

/-- Responses of the auth controller's `verifyOTP` handler. -/
inductive VerifyOtpResp
  | badRequest            -- 400, missing fields or bad verification type
  | userAbsent            -- 404 'User not found'
  | failed (m : OtpMsg)   -- 400 with the service message
  | verified (userId : Nat)  -- 200 with a fresh token
deriving Repr, DecidableEq

/-- The auth controller's `verifyOTP` handler (src/unnamed/part_013,
lines 601–672): resolve the user from the email or phone number, call the
service, and — on any service failure — call `incrementOTPAttempts` with
the *submitted* code before responding 400. -/
def verifyOTPCtrl (db : DB) (otpCode vt : String)
    (email phoneNumber : Option String) : VerifyOtpResp × DB :=
  if otpCode == "" then (.badRequest, db)
  else
    let userLookup : Option (Option UserRow) :=
      if vt = "email" then
        match email with
        | some e => some (db.users.find? (fun u => u.email == e))
        | none => none
      else if vt = "sms" then
        match phoneNumber with
        | some p => some (db.users.find? (fun u => u.phone_number == some p))
        | none => none
      else none
    match userLookup with
    | none => (.badRequest, db)
    | some none => (.userAbsent, db)
    | some (some u) =>
      let r := verifyOTP db u.id otpCode vt
      if r.1.1 then (.verified u.id, r.2)
      else (.failed r.1.2, incrementOTPAttempts r.2 u.id otpCode vt)

/-- `OTPService.sendAndStoreOTP` (src/src/services/otpService.js, lines
214–245): inserts the challenge row with `expires_at = now + 10 * 60 *
1000` ms and reports `expiresIn: 600` seconds.  Delivery influences
neither the stored row nor the returned value and is elided; the random
code and the fresh row id are parameters. -/
def sendAndStoreOTP (db : DB) (newId : Nat) (otpCode : String) (userId : Nat)
    (email phoneNumber : Option String) (vt : String) : (Bool × Nat) × DB :=
  ((true, 600),
   { db with otps := db.otps ++
      [⟨newId, userId, email, phoneNumber, otpCode, vt, false,
        db.now + 10 * 60 * 1000, none, 0⟩] })

/-- The repository's other `OTPService.sendAndStoreOTP`
(src/unnamed/part_006, lines 261–296), the variant matching the
documented 3-minute TTL: `expires_at = now + 3 * 60 * 1000` ms,
`expiresIn: 180`. -/
def sendAndStoreOTP_3m (db : DB) (newId : Nat) (otpCode : String) (userId : Nat)
    (email phoneNumber : Option String) (vt : String) : (Bool × Nat) × DB :=
  ((true, 180),
   { db with otps := db.otps ++
      [⟨newId, userId, email, phoneNumber, otpCode, vt, false,
        db.now + 3 * 60 * 1000, none, 0⟩] })

/-- Store with one live OTP challenge for user 1: code "123456", email
channel, unexpired, zero attempts. -/
def dbOtp : DB :=
  { users := [userAlice], refresh_tokens := []
    otps := [⟨1, 1, some "alice@example.com", none, "123456", "email", false,
      10000, none, 0⟩]
    ctr := 0, now := 0, lookupFault := false }

/-- Claim C2 counterexample: the claim "after 3 failed attempts against
that same challenge, a 4th submission of the correct code fails with
TooManyAttempts" is false at a concrete input.  Three wrong guesses fail
but increment only rows whose stored code equals the *wrong* submitted
code — i.e. nothing — so the live challenge's counter stays 0 and the
4th submission of the correct code succeeds. -/
theorem C2_wrong_guesses_do_not_lock_counterexample :
    (verifyOTPCtrl dbOtp "000000" "email" (some "alice@example.com") none).1 =
      .failed .invalidOrExpired ∧
    (verifyOTPCtrl
      (verifyOTPCtrl
        (verifyOTPCtrl
          (verifyOTPCtrl dbOtp "000000" "email" (some "alice@example.com") none).2
          "000000" "email" (some "alice@example.com") none).2
        "000000" "email" (some "alice@example.com") none).2
      "123456" "email" (some "alice@example.com") none).1 = .verified 1 := by
  constructor <;> rfl

/-- Claim C2, amended: verifying with the correct code succeeds iff the
matched live challenge's own counter is < 3 (and fails with
TooManyAttempts once that counter is ≥ 3); but a failed verify increments
only rows whose stored code equals the submitted code, so wrong guesses
leave the live challenge's counter unchanged and a 4th submission of the
correct code after 3 wrong guesses succeeds rather than failing. -/
theorem C2_attempt_counter_semantics (db : DB) (uid : Nat)
    (code vt code2 : String) (row : OtpRow)
    (hfind : liveOtpFind db uid code vt = some row)
    (hmiss : ∀ o ∈ db.otps, o.otp_code ≠ code2) :
    ((verifyOTP db uid code vt).1 = (true, .verified) ↔ row.attempts < 3) ∧
    (3 ≤ row.attempts → (verifyOTP db uid code vt).1 = (false, .tooManyAttempts)) ∧
    (incrementOTPAttempts db uid code2 vt).otps = db.otps := by
  refine ⟨?_, ?_, ?_⟩
  · unfold verifyOTP
    rw [hfind]
    dsimp only
    by_cases h3 : 3 ≤ row.attempts
    · simp [h3]
    · simp [h3]
      omega
  · intro h3
    unfold verifyOTP
    rw [hfind]
    dsimp only
    rw [if_pos h3]
  · unfold incrementOTPAttempts
    dsimp only
    have hcong : ∀ o ∈ db.otps,
        (if o.user_id == uid && o.otp_code == code2 && o.verification_type == vt then
          { o with attempts := o.attempts + 1 } else o) = o := by
      intro o ho
      have : (o.otp_code == code2) = false := by
        simpa using hmiss o ho
      simp [this]
    rw [List.map_congr_left hcong]
    exact List.map_id' db.otps

/-- Claim C2 witness: the amended semantics evaluated on the concrete
one-challenge store `dbOtp` with the wrong code "000000". -/
theorem C2_attempt_counter_semantics_witness :
    liveOtpFind dbOtp 1 "123456" "email" =
      some ⟨1, 1, some "alice@example.com", none, "123456", "email", false,
        10000, none, 0⟩ ∧
    (∀ o ∈ dbOtp.otps, o.otp_code ≠ "000000") ∧
    (((verifyOTP dbOtp 1 "123456" "email").1 = (true, .verified) ↔
        (⟨1, 1, some "alice@example.com", none, "123456", "email", false,
          10000, none, 0⟩ : OtpRow).attempts < 3) ∧
      (3 ≤ (⟨1, 1, some "alice@example.com", none, "123456", "email", false,
          10000, none, 0⟩ : OtpRow).attempts →
        (verifyOTP dbOtp 1 "123456" "email").1 = (false, .tooManyAttempts)) ∧
      (incrementOTPAttempts dbOtp 1 "000000" "email").otps = dbOtp.otps) := by
  have hmiss : ∀ o ∈ dbOtp.otps, o.otp_code ≠ "000000" := by
    intro o ho
    simp only [dbOtp, List.mem_singleton] at ho
    subst ho
    decide
  exact ⟨rfl, hmiss,
    C2_attempt_counter_semantics dbOtp 1 "123456" "email" "000000"
      ⟨1, 1, some "alice@example.com", none, "123456", "email", false,
        10000, none, 0⟩ rfl hmiss⟩

/-- Claim C5: contrary to the claim (and to the repository's own
documentation, which states a 3-minute TTL), the OTP service at
src/src/services/otpService.js persists every challenge with expiry
`now + 600 seconds` and reports `expiresIn = 600`, not 180; the
repository's other copy of the service (src/unnamed/part_006) is the one
that uses `now + 180 seconds` and reports 180. -/
theorem C5_ttl_is_600_not_180 (db : DB) (newId : Nat) (otpCode : String)
    (userId : Nat) (email phoneNumber : Option String) (vt : String) :
    (sendAndStoreOTP db newId otpCode userId email phoneNumber vt).1.2 = 600 ∧
    (sendAndStoreOTP db newId otpCode userId email phoneNumber vt).2.otps =
      db.otps ++ [⟨newId, userId, email, phoneNumber, otpCode, vt, false,
        db.now + 600 * 1000, none, 0⟩] ∧
    (sendAndStoreOTP_3m db newId otpCode userId email phoneNumber vt).1.2 = 180 ∧
    (sendAndStoreOTP_3m db newId otpCode userId email phoneNumber vt).2.otps =
      db.otps ++ [⟨newId, userId, email, phoneNumber, otpCode, vt, false,
        db.now + 180 * 1000, none, 0⟩] :=
  ⟨rfl, rfl, rfl, rfl⟩

end Zyra
